import Mathlib

/-!
Shallow embedding of the underwriting / financial-return engine of the
`real-estate-investment-analysis` repository, together with theorems that
settle the frozen claims about its specification.

The embedding covers `src/underwriting_engine.py` (classes `PropertyData`,
`FinancialData`, `OperatingExpenses`, `UnderwritingResult` and the methods of
`UnderwritingEngine`) and `src/financial_calculator.py` (class
`FinancialCalculator` and its return-decomposition methods, with the numeric
defaults of `src/config.py`).  Python floats are modelled as rationals (ℚ);
Python's `round(x, 2)` is modelled by an exact two-decimal rounding on ℚ.
Exceptions (`raise ValueError`) are modelled with `Except String`.
`datetime.now().year` is modelled by an explicit `current_year` parameter.
The optimization-opportunity catalog (`generate_optimization_opportunities`)
is touched by none of the claims and is omitted from the embedded
`UnderwritingResult`.
-/

/-- `PropertyData` from `underwriting_engine.py` (lines 16-28). -/
structure PropertyData where
  address : String
  purchase_price : ℚ
  square_footage : ℤ
  bedrooms : ℤ
  bathrooms : ℚ
  year_built : ℤ
  property_type : String
  estimated_rent : ℚ
  days_on_market : ℤ
  listing_url : String
  deriving Repr, DecidableEq

/-- `FinancialData` from `underwriting_engine.py` (lines 30-41): the engine's
financial constants, with the dataclass defaults (0.20, 0.065, 30, 0.025,
0.008, 0.015, 0.08, 0.05, 0.03 as exact rationals). -/
structure FinancialData where
  down_payment_pct : ℚ := 1/5
  interest_rate : ℚ := 13/200
  loan_term : ℕ := 30
  property_tax_rate : ℚ := 1/40
  insurance_rate : ℚ := 1/125
  maintenance_rate : ℚ := 3/200
  management_rate : ℚ := 2/25
  vacancy_rate : ℚ := 1/20
  closing_costs_pct : ℚ := 3/100
  deriving Repr, DecidableEq

/-- `OperatingExpenses` from `underwriting_engine.py` (lines 43-56): monthly
operating-expense line items. -/
structure OperatingExpenses where
  internet : ℚ := 100
  water : ℚ := 60
  electricity : ℚ := 300
  natural_gas : ℚ := 0
  pest_control : ℚ := 50
  pool_maintenance : ℚ := 150
  property_tax : ℚ := 0
  insurance : ℚ := 0
  maintenance : ℚ := 0
  management : ℚ := 0
  vacancy : ℚ := 0
  deriving Repr, DecidableEq

/-- The dict returned by `UnderwritingEngine.calculate_mortgage`
(lines 123-131). -/
structure MortgageDetails where
  down_payment : ℚ
  loan_amount : ℚ
  monthly_payment : ℚ
  closing_costs : ℚ
  total_oop : ℚ
  monthly_rate : ℚ
  num_payments : ℕ
  deriving Repr, DecidableEq

/-- The `expense_breakdown` sub-dict of `UnderwritingEngine.calculate_cash_flow`
(lines 193-199). -/
structure ExpenseBreakdown where
  utilities : ℚ
  maintenance : ℚ
  taxes_insurance : ℚ
  management : ℚ
  vacancy : ℚ
  deriving Repr, DecidableEq

/-- The dict returned by `UnderwritingEngine.calculate_cash_flow`
(lines 186-200). -/
structure CashFlowResult where
  monthly_rent : ℚ
  monthly_expenses : ℚ
  monthly_mortgage : ℚ
  net_operating_income : ℚ
  monthly_cash_flow : ℚ
  annual_cash_flow : ℚ
  expense_breakdown : ExpenseBreakdown
  deriving Repr, DecidableEq

/-- The three scenario tags iterated by `underwrite_property` (line 451);
`analyze_scenarios` raises on any other string, so the tag type is closed. -/
inductive ScenarioType where
  | low
  | mid
  | high
  deriving Repr, DecidableEq

/-- The dict returned by `UnderwritingEngine.analyze_scenarios`
(lines 233-238). -/
structure ScenarioAdjustment where
  rent : ℚ
  expenses : ℚ
  vacancy_rate : ℚ
  scenario_type : ScenarioType
  deriving Repr, DecidableEq

/-- One entry of the `scenarios` dict built by `underwrite_property`
(lines 470-475). -/
structure ScenarioResult where
  rent : ℚ
  expenses : ℚ
  cash_flow : CashFlowResult
  coc_return : ℚ
  deriving Repr, DecidableEq

/-- The `scenarios` dict of `underwrite_property`, keyed by the three tags. -/
structure Scenarios where
  low : ScenarioResult
  mid : ScenarioResult
  high : ScenarioResult
  deriving Repr, DecidableEq

/-- The dict returned by `UnderwritingEngine.assess_risk` (lines 372-377). -/
structure RiskAssessment where
  risk_score : ℕ
  risk_level : String
  risk_factors : List String
  mitigation_strategies : List String
  deriving Repr, DecidableEq

/-- `UnderwritingResult` from `underwriting_engine.py` (lines 58-70).  The
`optimization_opportunities` list is not modelled (no claim concerns it). -/
structure UnderwritingResult where
  property_data : PropertyData
  financial_data : FinancialData
  mortgage_details : MortgageDetails
  cash_flow_analysis : CashFlowResult
  coc_return : ℚ
  roi : ℚ
  scenarios : Scenarios
  risk_assessment : RiskAssessment
  recommendation : String
  deriving Repr, DecidableEq

/-- `UnderwritingEngine.validate_inputs` (lines 81-92): the `raise` chain is
modelled as `Except`; note the last guard is `interest_rate > 0.20`, so a rate
of exactly 0.20 passes. -/
def validate_inputs (purchase_price down_payment_pct interest_rate : ℚ) :
    Except String Unit :=
  if purchase_price ≤ 0 then .error "Purchase price must be positive"
  else if down_payment_pct < 1/5 then .error "Down payment must be at least 20%"
  else if interest_rate ≤ 0 then .error "Interest rate must be positive"
  else if interest_rate > 1/5 then .error "Interest rate seems unrealistic"
  else .ok ()

/-- The computational part of `UnderwritingEngine.calculate_mortgage`
(lines 100-131), after validation has passed. -/
def calculate_mortgage_terms (fd : FinancialData)
    (purchase_price down_payment_pct interest_rate : ℚ) : MortgageDetails :=
  let down_payment := purchase_price * down_payment_pct
  let loan_amount := purchase_price - down_payment
  let monthly_rate := interest_rate / 12
  let num_payments := fd.loan_term * 12
  let monthly_payment :=
    if monthly_rate = 0 then loan_amount / (num_payments : ℚ)
    else (loan_amount * monthly_rate * (1 + monthly_rate) ^ num_payments) /
      ((1 + monthly_rate) ^ num_payments - 1)
  let closing_costs := purchase_price * fd.closing_costs_pct
  { down_payment, loan_amount, monthly_payment, closing_costs,
    total_oop := down_payment + closing_costs, monthly_rate, num_payments }

/-- `UnderwritingEngine.calculate_mortgage` (lines 94-131): validates first
(the `raise` propagates), then computes the terms. -/
def calculate_mortgage (fd : FinancialData)
    (purchase_price down_payment_pct interest_rate : ℚ) :
    Except String MortgageDetails :=
  (validate_inputs purchase_price down_payment_pct interest_rate).map
    (fun _ => calculate_mortgage_terms fd purchase_price down_payment_pct interest_rate)

/-- `UnderwritingEngine.calculate_operating_expenses` (lines 133-163). -/
def calculate_operating_expenses (fd : FinancialData)
    (purchase_price estimated_rent : ℚ) : OperatingExpenses :=
  { property_tax := (purchase_price * fd.property_tax_rate) / 12
    insurance := (purchase_price * fd.insurance_rate) / 12
    maintenance := (purchase_price * fd.maintenance_rate) / 12
    management := estimated_rent * fd.management_rate
    vacancy := estimated_rent * fd.vacancy_rate
    internet := 100, water := 60, electricity := 300, natural_gas := 0
    pest_control := 50, pool_maintenance := 150 }

/-- `UnderwritingEngine.calculate_cash_flow` (lines 165-200).  Note the
source comment at line 170: the total excludes the `vacancy` item. -/
def calculate_cash_flow (estimated_rent : ℚ) (opex : OperatingExpenses)
    (monthly_mortgage : ℚ) : CashFlowResult :=
  let total_monthly_expenses :=
    opex.internet + opex.water + opex.electricity + opex.natural_gas +
    opex.pest_control + opex.pool_maintenance + opex.property_tax +
    opex.insurance + opex.maintenance + opex.management
  let net_operating_income := estimated_rent - total_monthly_expenses
  let monthly_cash_flow := net_operating_income - monthly_mortgage
  { monthly_rent := estimated_rent
    monthly_expenses := total_monthly_expenses
    monthly_mortgage
    net_operating_income
    monthly_cash_flow
    annual_cash_flow := monthly_cash_flow * 12
    expense_breakdown :=
      { utilities := opex.internet + opex.water + opex.electricity + opex.natural_gas
        maintenance := opex.pest_control + opex.pool_maintenance + opex.maintenance
        taxes_insurance := opex.property_tax + opex.insurance
        management := opex.management
        vacancy := opex.vacancy } }

/-- `UnderwritingEngine.calculate_coc_return` (lines 202-209). -/
def calculate_coc_return (annual_cash_flow down_payment : ℚ) : ℚ :=
  if down_payment ≤ 0 then 0 else annual_cash_flow / down_payment

/-- `UnderwritingEngine.analyze_scenarios` (lines 211-238), restricted to the
three tags actually passed by `underwrite_property`. -/
def analyze_scenarios (base_rent base_expenses : ℚ) :
    ScenarioType → ScenarioAdjustment
  | .low =>
      { rent := base_rent * (9/10), expenses := base_expenses * (11/10)
        vacancy_rate := 2/25, scenario_type := .low }
  | .mid =>
      { rent := base_rent, expenses := base_expenses
        vacancy_rate := 1/20, scenario_type := .mid }
  | .high =>
      { rent := base_rent * (11/10), expenses := base_expenses * (9/10)
        vacancy_rate := 3/100, scenario_type := .high }

/-- `pat` occurs at the head of `s` (character-list version, used to model
Python's substring operator). -/
def leadsWith : List Char → List Char → Bool
  | [], _ => true
  | _ :: _, [] => false
  | a :: as, b :: bs => a == b && leadsWith as bs

/-- `pat` occurs contiguously somewhere in `s`. -/
def occursIn (pat : List Char) : List Char → Bool
  | [] => leadsWith pat []
  | s =>
    match s with
    | [] => false
    | _ :: rest => leadsWith pat s || occursIn pat rest

/-- Python's `sub in s` substring test on strings. -/
def strContains (s sub : String) : Bool :=
  occursIn sub.data s.data

/-- `UnderwritingEngine._generate_mitigation_strategies` (lines 379-395):
for each factor, the first matching substring test (if any) appends its fixed
strategy string. -/
def generate_mitigation_strategies : List String → List String
  | [] => []
  | factor :: rest =>
    (if strContains factor "Negative cash flow" then
        ["Implement optimization strategies to improve cash flow"]
      else if strContains factor "Low CoC return" then
        ["Consider alternative properties or financing options"]
      else if strContains factor "High days on market" then
        ["Conduct thorough market analysis and price optimization"]
      else if strContains factor "Older property" then
        ["Budget for increased maintenance and potential renovations"]
      else []) ++ generate_mitigation_strategies rest

/-- `UnderwritingEngine.assess_risk` (lines 326-377).  `datetime.now().year`
is passed in as `current_year`. -/
def assess_risk (pd : PropertyData) (cash_flow : CashFlowResult)
    (coc_return : ℚ) (current_year : ℤ) : RiskAssessment :=
  let market : List String × ℕ :=
    if pd.days_on_market > 90 then (["High days on market"], 2)
    else if pd.days_on_market > 60 then (["Moderate days on market"], 1)
    else ([], 0)
  let cfRisk : List String × ℕ :=
    if cash_flow.monthly_cash_flow < 0 then (["Negative cash flow"], 3)
    else if cash_flow.monthly_cash_flow < 200 then (["Low cash flow"], 1)
    else ([], 0)
  let cocRisk : List String × ℕ :=
    if coc_return < 1/20 then (["Low CoC return"], 2)
    else if coc_return < 2/25 then (["Moderate CoC return"], 1)
    else ([], 0)
  let ageRisk : List String × ℕ :=
    if current_year - pd.year_built > 30 then (["Older property"], 1)
    else ([], 0)
  let risk_factors := market.1 ++ cfRisk.1 ++ cocRisk.1 ++ ageRisk.1
  let risk_score := market.2 + cfRisk.2 + cocRisk.2 + ageRisk.2
  let risk_level :=
    if risk_score ≥ 5 then "High"
    else if risk_score ≥ 3 then "Medium"
    else "Low"
  { risk_score, risk_level, risk_factors
    mitigation_strategies := generate_mitigation_strategies risk_factors }

/-- `UnderwritingEngine.generate_recommendation` (lines 397-414). -/
def generate_recommendation (coc_return : ℚ) (risk_assessment : RiskAssessment)
    (oop_requirement total_oop : ℚ) : String :=
  if total_oop > oop_requirement then "PASS - Exceeds OOP requirement"
  else if risk_assessment.risk_level = "High" then "PASS - High risk level"
  else if coc_return ≥ 9/100 then "STRONG BUY - Excellent CoC return"
  else if coc_return ≥ 7/100 then "BUY - Good CoC return"
  else if coc_return ≥ 5/100 then "HOLD - Acceptable CoC return"
  else "PASS - Insufficient CoC return"

/-- The body of the scenario loop in `underwrite_property` (lines 451-475):
the scenario cash flow is recomputed from the adjusted rent but the ORIGINAL
`opex` and the original monthly payment; the adjusted expense figure is only
stored in the `expenses` field. -/
def scenario_result (cash_flow : CashFlowResult) (opex : OperatingExpenses)
    (md : MortgageDetails) (scenario_type : ScenarioType) : ScenarioResult :=
  let scenario_rent :=
    analyze_scenarios cash_flow.monthly_rent cash_flow.monthly_expenses scenario_type
  let scenario_cash_flow :=
    calculate_cash_flow scenario_rent.rent opex md.monthly_payment
  let scenario_coc :=
    calculate_coc_return scenario_cash_flow.annual_cash_flow md.down_payment
  { rent := scenario_rent.rent, expenses := scenario_rent.expenses
    cash_flow := scenario_cash_flow, coc_return := scenario_coc }

/-- The result assembled by `UnderwritingEngine.underwrite_property`
(lines 416-509) once validation has passed. -/
def underwrite_result (fd : FinancialData) (current_year : ℤ)
    (pd : PropertyData) (oop_requirement : ℚ) :
    UnderwritingResult :=
  let mortgage_details :=
    calculate_mortgage_terms fd pd.purchase_price fd.down_payment_pct fd.interest_rate
  let opex := calculate_operating_expenses fd pd.purchase_price pd.estimated_rent
  let cash_flow := calculate_cash_flow pd.estimated_rent opex mortgage_details.monthly_payment
  let coc_return := calculate_coc_return cash_flow.annual_cash_flow mortgage_details.down_payment
  let roi := coc_return
  let scenarios : Scenarios :=
    { low := scenario_result cash_flow opex mortgage_details .low
      mid := scenario_result cash_flow opex mortgage_details .mid
      high := scenario_result cash_flow opex mortgage_details .high }
  let risk_assessment := assess_risk pd cash_flow coc_return current_year
  let recommendation :=
    generate_recommendation coc_return risk_assessment oop_requirement
      mortgage_details.total_oop
  { property_data := pd, financial_data := fd, mortgage_details
    cash_flow_analysis := cash_flow, coc_return, roi, scenarios
    risk_assessment, recommendation }

/-- `UnderwritingEngine.underwrite_property` (lines 416-509): the first step,
`calculate_mortgage`, validates the inputs and its `raise` propagates; all the
rest is pure computation assembled in `underwrite_result`. -/
def underwrite_property (fd : FinancialData) (current_year : ℤ)
    (pd : PropertyData) (oop_requirement : ℚ) : Except String UnderwritingResult :=
  (validate_inputs pd.purchase_price fd.down_payment_pct fd.interest_rate).map
    (fun _ => underwrite_result fd current_year pd oop_requirement)

/-- Python's `round(q, 2)` on exact rationals: two-decimal rounding. -/
def round2 (q : ℚ) : ℚ :=
  (round (q * 100) : ℚ) / 100

/-- `FinancialCalculator` from `financial_calculator.py` (lines 9-20), with
the `config.py` defaults (0.20, 0.065, 30, 0.03, 0.25, 0.0275, 0.08, 0.005,
0.01, 0.05 as exact rationals). -/
structure FinancialCalculator where
  down_payment_pct : ℚ := 1/5
  interest_rate : ℚ := 13/200
  loan_term : ℕ := 30
  appreciation_rate : ℚ := 3/100
  tax_rate : ℚ := 1/4
  depreciation_rate : ℚ := 11/400
  property_management_fee : ℚ := 2/25
  insurance_rate : ℚ := 1/200
  maintenance_rate : ℚ := 1/100
  vacancy_rate : ℚ := 1/20
  deriving Repr, DecidableEq

/-- `FinancialCalculator.calculate_monthly_mortgage_payment` (lines 22-35):
a non-positive loan amount returns 0 (no exception is raised). -/
def calculate_monthly_mortgage_payment (fc : FinancialCalculator)
    (loan_amount : ℚ) : ℚ :=
  if loan_amount ≤ 0 then 0
  else
    let monthly_rate := fc.interest_rate / 12
    let num_payments := fc.loan_term * 12
    if monthly_rate = 0 then loan_amount / (num_payments : ℚ)
    else loan_amount * (monthly_rate * (1 + monthly_rate) ^ num_payments) /
      ((1 + monthly_rate) ^ num_payments - 1)

/-- The dict returned by `FinancialCalculator.calculate_loan_amortization`
(lines 54-59). -/
structure AmortizationResult where
  monthly_payment : ℚ
  annual_interest : ℚ
  annual_principal : ℚ
  remaining_balance : ℚ
  deriving Repr, DecidableEq

/-- One iteration of the amortization loop (lines 46-52); the state is
(total_interest, total_principal, remaining_balance). -/
def amort_step (monthly_payment monthly_rate : ℚ) :
    ℚ × ℚ × ℚ → ℚ × ℚ × ℚ
  | (total_interest, total_principal, remaining_balance) =>
    let interest_payment := remaining_balance * monthly_rate
    let principal_payment := monthly_payment - interest_payment
    (total_interest + interest_payment, total_principal + principal_payment,
      remaining_balance - principal_payment)

/-- `FinancialCalculator.calculate_loan_amortization` (lines 37-59) at the
default `num_years = 1` used by every caller: exactly 12 loop iterations. -/
def calculate_loan_amortization (fc : FinancialCalculator)
    (loan_amount : ℚ) : AmortizationResult :=
  let monthly_payment := calculate_monthly_mortgage_payment fc loan_amount
  let monthly_rate := fc.interest_rate / 12
  let s := (amort_step monthly_payment monthly_rate)^[12] (0, 0, loan_amount)
  { monthly_payment, annual_interest := s.1, annual_principal := s.2.1,
    remaining_balance := s.2.2 }

/-- `FinancialCalculator._calculate_annual_expenses` (lines 155-191); the
property dict is represented by its two consumed entries `price` and
`estimated_rental_income`. -/
def calculate_annual_expenses (fc : FinancialCalculator)
    (price monthly_rent : ℚ) : ℚ :=
  let property_management := monthly_rent * 12 * fc.property_management_fee
  let insurance := price * fc.insurance_rate
  let maintenance := price * fc.maintenance_rate
  let vacancy_loss := monthly_rent * 12 * fc.vacancy_rate
  let property_taxes := price * (3/250)
  let utilities := 200 * 12
  let hoa_fees := 300 * 12
  property_management + insurance + maintenance + vacancy_loss +
    property_taxes + utilities + hoa_fees

/-- `FinancialCalculator.calculate_cash_on_cash_return` (lines 61-91):
the fraction is scaled to a percentage and rounded to two decimals; a
non-positive down payment yields 0. -/
def calculate_cash_on_cash_return (fc : FinancialCalculator)
    (price monthly_rent : ℚ) : ℚ :=
  let down_payment := price * fc.down_payment_pct
  let loan_amount := price - down_payment
  let annual_rent := monthly_rent * 12
  let annual_expenses := calculate_annual_expenses fc price monthly_rent
  let amortization := calculate_loan_amortization fc loan_amount
  let annual_mortgage_payment := amortization.monthly_payment * 12
  let annual_cash_flow := annual_rent - annual_expenses - annual_mortgage_payment
  if 0 < down_payment then round2 (annual_cash_flow / down_payment * 100) else 0

/-- `FinancialCalculator.calculate_appreciation_return` (lines 93-108). -/
def calculate_appreciation_return (fc : FinancialCalculator) (price : ℚ) : ℚ :=
  let annual_appreciation := price * fc.appreciation_rate
  let down_payment := price * fc.down_payment_pct
  if 0 < down_payment then round2 (annual_appreciation / down_payment * 100) else 0

/-- `FinancialCalculator.calculate_tax_savings_return` (lines 110-132):
80% of the price depreciated straight-line over 27.5 years. -/
def calculate_tax_savings_return (fc : FinancialCalculator) (price : ℚ) : ℚ :=
  let down_payment := price * fc.down_payment_pct
  let depreciable_value := price * (4/5)
  let annual_depreciation := depreciable_value / (55/2)
  let annual_tax_savings := annual_depreciation * fc.tax_rate
  if 0 < down_payment then round2 (annual_tax_savings / down_payment * 100) else 0

/-- `FinancialCalculator.calculate_principal_paydown_return` (lines 134-153). -/
def calculate_principal_paydown_return (fc : FinancialCalculator) (price : ℚ) : ℚ :=
  let down_payment := price * fc.down_payment_pct
  let loan_amount := price - down_payment
  let amortization := calculate_loan_amortization fc loan_amount
  if 0 < down_payment then
    round2 (amortization.annual_principal / down_payment * 100)
  else 0

/-- The dict returned by `FinancialCalculator.calculate_total_return`
(lines 219-232). -/
structure TotalReturnResult where
  cash_on_cash_return : ℚ
  appreciation_return : ℚ
  tax_savings_return : ℚ
  principal_paydown_return : ℚ
  total_return : ℚ
  monthly_cash_flow : ℚ
  annual_cash_flow : ℚ
  down_payment : ℚ
  loan_amount : ℚ
  monthly_mortgage : ℚ
  annual_expenses : ℚ
  annual_rent : ℚ
  deriving Repr, DecidableEq

/-- `FinancialCalculator.calculate_total_return` (lines 193-232): the four
individually rounded components and their plain sum, plus auxiliary metrics. -/
def calculate_total_return (fc : FinancialCalculator)
    (price monthly_rent : ℚ) : TotalReturnResult :=
  let cash_on_cash := calculate_cash_on_cash_return fc price monthly_rent
  let appreciation := calculate_appreciation_return fc price
  let tax_savings := calculate_tax_savings_return fc price
  let principal_paydown := calculate_principal_paydown_return fc price
  let total_return := cash_on_cash + appreciation + tax_savings + principal_paydown
  let down_payment := price * fc.down_payment_pct
  let annual_rent := monthly_rent * 12
  let loan_amount := price - down_payment
  let amortization := calculate_loan_amortization fc loan_amount
  let monthly_mortgage := amortization.monthly_payment
  let annual_expenses := calculate_annual_expenses fc price monthly_rent
  let monthly_expenses := annual_expenses / 12
  let monthly_cash_flow := monthly_rent - monthly_expenses - monthly_mortgage
  { cash_on_cash_return := cash_on_cash
    appreciation_return := appreciation
    tax_savings_return := tax_savings
    principal_paydown_return := principal_paydown
    total_return
    monthly_cash_flow
    annual_cash_flow := monthly_cash_flow * 12
    down_payment, loan_amount, monthly_mortgage, annual_expenses, annual_rent }

/-- The recommendation decision written from the spec's §4.8 rule table
(refinement target for the recommendation claim): the six rules evaluated in
strict order, first match winning, with the OOP constraint first, then the
risk tier, then the 9% / 7% / 5% cash-on-cash thresholds (the engine stores
cash-on-cash as a fraction, so 9% is 0.09).  Label strings are the engine's. -/
def recommendation_rules_spec (coc_return : ℚ) (risk_level : String)
    (oop_requirement total_oop : ℚ) : String :=
  if total_oop > oop_requirement then "PASS - Exceeds OOP requirement"
  else if risk_level = "High" then "PASS - High risk level"
  else if coc_return ≥ 9/100 then "STRONG BUY - Excellent CoC return"
  else if coc_return ≥ 7/100 then "BUY - Good CoC return"
  else if coc_return ≥ 5/100 then "HOLD - Acceptable CoC return"
  else "PASS - Insufficient CoC return"

/-- The per-factor mitigation mapping actually realized by
`_generate_mitigation_strategies`: only the four exact high-severity factor
strings ever produced by `assess_risk` have a mitigation; the lower-severity
variants ("Low cash flow", "Moderate CoC return", "Moderate days on market")
map to none. -/
def mitigation_for : String → Option String
  | "Negative cash flow" => some "Implement optimization strategies to improve cash flow"
  | "Low CoC return" => some "Consider alternative properties or financing options"
  | "High days on market" => some "Conduct thorough market analysis and price optimization"
  | "Older property" => some "Budget for increased maintenance and potential renovations"
  | _ => none

/-- The example property from the `__main__` block of
`underwriting_engine.py` (lines 517-528), used as a concrete fixture. -/
def sample_property : PropertyData :=
  { address := "2456 Oak Ridge Drive, Houston, TX 77056"
    purchase_price := 325000
    square_footage := 2150
    bedrooms := 3
    bathrooms := 5/2
    year_built := 2015
    property_type := "Single Family"
    estimated_rent := 2200
    days_on_market := 45
    listing_url := "https://example.com" }

/-- A fixture property whose risk signals trigger only the low-severity
"Low cash flow" factor (on the market 45 days, built 2020). -/
def modest_risk_property : PropertyData :=
  { address := "100 Quiet Lane"
    purchase_price := 200000
    square_footage := 1500
    bedrooms := 3
    bathrooms := 2
    year_built := 2020
    property_type := "Single Family"
    estimated_rent := 2000
    days_on_market := 45
    listing_url := "https://example.com/q" }

/-- Any two-decimal rounding is an integer multiple of 1/100. -/
theorem round2_eq_int_div_hundred (q : ℚ) : ∃ k : ℤ, round2 q = (k : ℚ) / 100 :=
  ⟨round (q * 100), rfl⟩

/-- A guarded two-decimal rounding (the `DivisionGuard` pattern of the return
components) is still an integer multiple of 1/100. -/
theorem guarded_round2_eq_int_div_hundred (b : Prop) [Decidable b] (q : ℚ) :
    ∃ k : ℤ, (if b then round2 q else 0) = (k : ℚ) / 100 := by
  split
  · exact ⟨round (q * 100), rfl⟩
  · exact ⟨0, by norm_num⟩

/-- C10: in every underwriting result the mid scenario coincides with the base
analysis: its rent is the base monthly rent, its CashFlowResult is the base
`cash_flow_analysis` field for field, its coc_return is the result's top-level
`coc_return`, and the `roi` field also equals `coc_return`. -/
theorem mid_scenario_coincides_with_base (fd : FinancialData) (current_year : ℤ)
    (pd : PropertyData) (oop_requirement : ℚ) :
    (underwrite_result fd current_year pd oop_requirement).scenarios.mid.rent =
      (underwrite_result fd current_year pd oop_requirement).cash_flow_analysis.monthly_rent ∧
    (underwrite_result fd current_year pd oop_requirement).scenarios.mid.cash_flow =
      (underwrite_result fd current_year pd oop_requirement).cash_flow_analysis ∧
    (underwrite_result fd current_year pd oop_requirement).scenarios.mid.coc_return =
      (underwrite_result fd current_year pd oop_requirement).coc_return ∧
    (underwrite_result fd current_year pd oop_requirement).roi =
      (underwrite_result fd current_year pd oop_requirement).coc_return :=
  ⟨rfl, rfl, rfl, rfl⟩

/-- C9: for all inputs, `total_return` equals the plain arithmetic sum of the
four individually two-decimal-rounded components (each component is an integer
multiple of 1/100, and the sum itself is not rounded again). -/
theorem total_return_component_sum (fc : FinancialCalculator)
    (price monthly_rent : ℚ) :
    (calculate_total_return fc price monthly_rent).total_return =
      (calculate_total_return fc price monthly_rent).cash_on_cash_return +
      (calculate_total_return fc price monthly_rent).appreciation_return +
      (calculate_total_return fc price monthly_rent).tax_savings_return +
      (calculate_total_return fc price monthly_rent).principal_paydown_return ∧
    (∃ k : ℤ, (calculate_total_return fc price monthly_rent).cash_on_cash_return = (k : ℚ) / 100) ∧
    (∃ k : ℤ, (calculate_total_return fc price monthly_rent).appreciation_return = (k : ℚ) / 100) ∧
    (∃ k : ℤ, (calculate_total_return fc price monthly_rent).tax_savings_return = (k : ℚ) / 100) ∧
    (∃ k : ℤ, (calculate_total_return fc price monthly_rent).principal_paydown_return = (k : ℚ) / 100) := by
  refine ⟨rfl, ?_, ?_, ?_, ?_⟩ <;> exact guarded_round2_eq_int_div_hundred _ _

/-- C5: `generate_recommendation` implements exactly the spec's §4.8 ordered
rule table with first match winning: the OOP-budget test dominates everything
(so a result over budget is a PASS no matter how high its cash-on-cash is),
then the High-risk test, then the 9% / 7% / 5% cash-on-cash thresholds. -/
theorem generate_recommendation_matches_rules (coc_return : ℚ)
    (risk_assessment : RiskAssessment) (oop_requirement total_oop : ℚ) :
    generate_recommendation coc_return risk_assessment oop_requirement total_oop =
      recommendation_rules_spec coc_return risk_assessment.risk_level
        oop_requirement total_oop :=
  rfl

/-- C2 counterexample: for the example property (price 325000, rent 2200) the
monthly expense total entering NOI is 2136, but the sum of ALL named line
items including the vacancy reserve is 2246 — the vacancy reserve is not one
of the items of the total. -/
theorem expense_total_omits_vacancy_counterexample :
    (calculate_cash_flow 2200 (calculate_operating_expenses {} 325000 2200) 0).monthly_expenses ≠
      (calculate_operating_expenses {} 325000 2200).internet +
      (calculate_operating_expenses {} 325000 2200).water +
      (calculate_operating_expenses {} 325000 2200).electricity +
      (calculate_operating_expenses {} 325000 2200).natural_gas +
      (calculate_operating_expenses {} 325000 2200).pest_control +
      (calculate_operating_expenses {} 325000 2200).pool_maintenance +
      (calculate_operating_expenses {} 325000 2200).property_tax +
      (calculate_operating_expenses {} 325000 2200).insurance +
      (calculate_operating_expenses {} 325000 2200).maintenance +
      (calculate_operating_expenses {} 325000 2200).management +
      (calculate_operating_expenses {} 325000 2200).vacancy := by
  norm_num [calculate_cash_flow, calculate_operating_expenses]

/-- C2 amended: the monthly expense total entering NOI equals the sum of the
named line items WITHOUT the vacancy reserve (NOI = rent − that total); the
vacancy line is computed and carried only in the reported expense breakdown. -/
theorem expense_total_is_sum_without_vacancy (fd : FinancialData)
    (purchase_price estimated_rent monthly_mortgage : ℚ) :
    (calculate_cash_flow estimated_rent
        (calculate_operating_expenses fd purchase_price estimated_rent)
        monthly_mortgage).monthly_expenses =
      (calculate_operating_expenses fd purchase_price estimated_rent).internet +
      (calculate_operating_expenses fd purchase_price estimated_rent).water +
      (calculate_operating_expenses fd purchase_price estimated_rent).electricity +
      (calculate_operating_expenses fd purchase_price estimated_rent).natural_gas +
      (calculate_operating_expenses fd purchase_price estimated_rent).pest_control +
      (calculate_operating_expenses fd purchase_price estimated_rent).pool_maintenance +
      (calculate_operating_expenses fd purchase_price estimated_rent).property_tax +
      (calculate_operating_expenses fd purchase_price estimated_rent).insurance +
      (calculate_operating_expenses fd purchase_price estimated_rent).maintenance +
      (calculate_operating_expenses fd purchase_price estimated_rent).management ∧
    (calculate_cash_flow estimated_rent
        (calculate_operating_expenses fd purchase_price estimated_rent)
        monthly_mortgage).net_operating_income =
      estimated_rent -
        (calculate_cash_flow estimated_rent
          (calculate_operating_expenses fd purchase_price estimated_rent)
          monthly_mortgage).monthly_expenses ∧
    (calculate_cash_flow estimated_rent
        (calculate_operating_expenses fd purchase_price estimated_rent)
        monthly_mortgage).expense_breakdown.vacancy =
      (calculate_operating_expenses fd purchase_price estimated_rent).vacancy :=
  ⟨rfl, rfl, rfl⟩

/-- C4 counterexample: at loanAmount = -100000 (rate and term at their
defaults) `calculate_monthly_mortgage_payment` returns the value 0 instead of
failing. -/
theorem negative_loan_returns_zero_counterexample :
    calculate_monthly_mortgage_payment {} (-100000) = 0 := by
  decide

/-- C4 amended: for every loanAmount < 0 (indeed ≤ 0), with any rate and term,
`calculate_monthly_mortgage_payment` returns 0 rather than failing. -/
theorem monthly_payment_zero_for_negative_loan (fc : FinancialCalculator)
    (loan_amount : ℚ) (h : loan_amount < 0) :
    calculate_monthly_mortgage_payment fc loan_amount = 0 := by
  unfold calculate_monthly_mortgage_payment
  rw [if_pos h.le]

/-- Witness for the amended C4 theorem at loanAmount = -100000. -/
theorem monthly_payment_zero_for_negative_loan_witness :
    ((-100000 : ℚ) < 0) ∧ calculate_monthly_mortgage_payment {} (-100000) = 0 :=
  ⟨by norm_num, monthly_payment_zero_for_negative_loan {} (-100000) (by norm_num)⟩

/-- C3 counterexample: with annual_interest_rate exactly 0.20 (price and down
payment valid), `underwrite_property` succeeds — a rate of exactly 0.20 is NOT
rejected, contradicting the claimed "rate ≥ 0.20 raises". -/
theorem rate_exactly_twenty_percent_accepted_counterexample :
    (underwrite_property { interest_rate := 1/5 } 2025 sample_property 375000).isOk = true := by
  norm_num [underwrite_property, validate_inputs, sample_property, Except.map,
    Except.isOk, Except.toBool]

/-- C3 amended: `underwrite_property` fails with a validation error if and
only if purchase_price ≤ 0, or down_payment_fraction < 0.20, or
annual_interest_rate ≤ 0, or annual_interest_rate > 0.20 (STRICT: a rate of
exactly 0.20 is accepted); the validation is the first step, so an error
carries no partial result. -/
theorem underwrite_error_iff (fd : FinancialData) (current_year : ℤ)
    (pd : PropertyData) (oop_requirement : ℚ) :
    (∃ e, underwrite_property fd current_year pd oop_requirement = Except.error e) ↔
      (pd.purchase_price ≤ 0 ∨ fd.down_payment_pct < 1/5 ∨
        fd.interest_rate ≤ 0 ∨ 1/5 < fd.interest_rate) := by
  unfold underwrite_property validate_inputs
  split_ifs with h1 h2 h3 h4 <;> simp_all [Except.map]

/-- C1 counterexample: for the example property the low scenario's
CashFlowResult carries the BASE monthly expense total (2136), not 1.10 times
it (2349.6): the perturbed expense figure never enters the scenario cash
flow. -/
theorem low_scenario_expense_total_counterexample :
    (underwrite_property {} 2025 sample_property 375000).map
        (fun res => res.scenarios.low.cash_flow.monthly_expenses) ≠
      (underwrite_property {} 2025 sample_property 375000).map
        (fun res => res.cash_flow_analysis.monthly_expenses * (11/10)) := by
  have hv : validate_inputs sample_property.purchase_price
      ({} : FinancialData).down_payment_pct ({} : FinancialData).interest_rate = .ok () := by
    norm_num [validate_inputs, sample_property]
  simp only [underwrite_property, hv, Except.map]
  simp only [ne_eq, Except.ok.injEq]
  simp only [underwrite_result, scenario_result, analyze_scenarios, calculate_cash_flow,
    calculate_operating_expenses, sample_property]
  norm_num

/-- C1 amended: the low/high scenario cash-flow results are computed from the
perturbed rent (0.90x / 1.10x) but the UNPERTURBED base expenses: the expense
total inside the scenario CashFlowResult equals the base total, while the
1.10x / 0.90x perturbed figure appears only in the scenario's reported
`expenses` field; the mortgage payment is unchanged in both. -/
theorem scenario_cash_flow_uses_base_expenses (fd : FinancialData)
    (current_year : ℤ) (pd : PropertyData) (oop_requirement : ℚ) :
    (underwrite_result fd current_year pd oop_requirement).scenarios.low.cash_flow.monthly_expenses =
      (underwrite_result fd current_year pd oop_requirement).cash_flow_analysis.monthly_expenses ∧
    (underwrite_result fd current_year pd oop_requirement).scenarios.high.cash_flow.monthly_expenses =
      (underwrite_result fd current_year pd oop_requirement).cash_flow_analysis.monthly_expenses ∧
    (underwrite_result fd current_year pd oop_requirement).scenarios.low.expenses =
      (underwrite_result fd current_year pd oop_requirement).cash_flow_analysis.monthly_expenses * (11/10) ∧
    (underwrite_result fd current_year pd oop_requirement).scenarios.high.expenses =
      (underwrite_result fd current_year pd oop_requirement).cash_flow_analysis.monthly_expenses * (9/10) ∧
    (underwrite_result fd current_year pd oop_requirement).scenarios.low.cash_flow.monthly_rent =
      (underwrite_result fd current_year pd oop_requirement).cash_flow_analysis.monthly_rent * (9/10) ∧
    (underwrite_result fd current_year pd oop_requirement).scenarios.high.cash_flow.monthly_rent =
      (underwrite_result fd current_year pd oop_requirement).cash_flow_analysis.monthly_rent * (11/10) ∧
    (underwrite_result fd current_year pd oop_requirement).scenarios.low.cash_flow.monthly_mortgage =
      (underwrite_result fd current_year pd oop_requirement).mortgage_details.monthly_payment ∧
    (underwrite_result fd current_year pd oop_requirement).scenarios.high.cash_flow.monthly_mortgage =
      (underwrite_result fd current_year pd oop_requirement).mortgage_details.monthly_payment :=
  ⟨rfl, rfl, rfl, rfl, rfl, rfl, rfl, rfl⟩

/-- C6 counterexample: a property triggering exactly the lower-severity
"Low cash flow" factor (cash flow 100/month, everything else benign) gets an
EMPTY mitigation list — no cash-flow-category mitigation is generated for the
lower-severity variant. -/
theorem low_cash_flow_factor_no_mitigation_counterexample :
    (assess_risk modest_risk_property (calculate_cash_flow 2000 {} 1240)
        (1/10) 2025).risk_factors = ["Low cash flow"] ∧
    (assess_risk modest_risk_property (calculate_cash_flow 2000 {} 1240)
        (1/10) 2025).mitigation_strategies = [] := by
  constructor
  · norm_num [assess_risk, modest_risk_property, calculate_cash_flow]
  · norm_num [assess_risk, modest_risk_property, calculate_cash_flow]
    decide

/-- `generate_mitigation_strategies` distributes over list append. -/
theorem generate_mitigation_strategies_append (xs ys : List String) :
    generate_mitigation_strategies (xs ++ ys) =
      generate_mitigation_strategies xs ++ generate_mitigation_strategies ys := by
  induction xs with
  | nil => rfl
  | cons f rest ih => simp [generate_mitigation_strategies, ih, List.append_assoc]

/-- C6 amended: the mitigation list of every risk assessment contains exactly
one fixed strategy per triggered HIGH-severity factor ("Negative cash flow",
"Low CoC return", "High days on market", "Older property"), in factor order;
the lower-severity variants ("Low cash flow", "Moderate CoC return",
"Moderate days on market") yield no mitigation entry. -/
theorem mitigation_one_per_high_severity_factor (pd : PropertyData)
    (cash_flow : CashFlowResult) (coc_return : ℚ) (current_year : ℤ) :
    (assess_risk pd cash_flow coc_return current_year).mitigation_strategies =
      List.filterMap mitigation_for
        (assess_risk pd cash_flow coc_return current_year).risk_factors := by
  simp only [assess_risk]
  split_ifs <;> decide

/-- With a positive down payment, `calculate_coc_return` is monotone in the
annual cash flow. -/
theorem calculate_coc_return_mono {a b d : ℚ} (hd : 0 < d) (h : a ≤ b) :
    calculate_coc_return a d ≤ calculate_coc_return b d := by
  unfold calculate_coc_return
  rw [if_neg (not_le.mpr hd), if_neg (not_le.mpr hd)]
  exact div_le_div_of_nonneg_right h hd.le

/-- C7: for every property passing validation (positive price, down-payment
fraction ≥ 0.20) with positive base monthly rent, the scenario cash-on-cash
returns are ordered low ≤ mid ≤ high under the 0.90 / 1.00 / 1.10 rent
multipliers. -/
theorem scenario_coc_ordering (fd : FinancialData) (current_year : ℤ)
    (pd : PropertyData) (oop_requirement : ℚ) (hprice : 0 < pd.purchase_price)
    (hdp : 1/5 ≤ fd.down_payment_pct) (hrent : 0 < pd.estimated_rent) :
    (underwrite_result fd current_year pd oop_requirement).scenarios.low.coc_return ≤
      (underwrite_result fd current_year pd oop_requirement).scenarios.mid.coc_return ∧
    (underwrite_result fd current_year pd oop_requirement).scenarios.mid.coc_return ≤
      (underwrite_result fd current_year pd oop_requirement).scenarios.high.coc_return := by
  have hdown : 0 < pd.purchase_price * fd.down_payment_pct :=
    mul_pos hprice (lt_of_lt_of_le (by norm_num) hdp)
  simp only [underwrite_result, scenario_result, analyze_scenarios, calculate_cash_flow,
    calculate_mortgage_terms, calculate_operating_expenses]
  constructor
  · exact calculate_coc_return_mono hdown (by linarith)
  · exact calculate_coc_return_mono hdown (by linarith)

/-- Witness for C7 at the example property with default assumptions. -/
theorem scenario_coc_ordering_witness :
    (0 : ℚ) < sample_property.purchase_price ∧
    (1/5 : ℚ) ≤ ({} : FinancialData).down_payment_pct ∧
    (0 : ℚ) < sample_property.estimated_rent ∧
    ((underwrite_result {} 2025 sample_property 375000).scenarios.low.coc_return ≤
        (underwrite_result {} 2025 sample_property 375000).scenarios.mid.coc_return ∧
      (underwrite_result {} 2025 sample_property 375000).scenarios.mid.coc_return ≤
        (underwrite_result {} 2025 sample_property 375000).scenarios.high.coc_return) :=
  ⟨by norm_num [sample_property], by norm_num, by norm_num [sample_property],
    scenario_coc_ordering {} 2025 sample_property 375000
      (by norm_num [sample_property]) (by norm_num) (by norm_num [sample_property])⟩

/-- C8: holding the property and all assumptions fixed (with a management fee
fraction ≤ 1, as the engine's fixed 0.08 is) and strictly increasing the
estimated monthly rent never decreases the cash-on-cash return. -/
theorem coc_return_monotone_in_rent (fd : FinancialData) (current_year : ℤ)
    (pd : PropertyData) (oop_requirement : ℚ) (rent1 rent2 : ℚ)
    (hm : fd.management_rate ≤ 1) (h : rent1 < rent2) :
    (underwrite_result fd current_year { pd with estimated_rent := rent1 }
        oop_requirement).coc_return ≤
      (underwrite_result fd current_year { pd with estimated_rent := rent2 }
        oop_requirement).coc_return := by
  have key : 0 ≤ (rent2 - rent1) * (1 - fd.management_rate) :=
    mul_nonneg (by linarith) (by linarith)
  simp only [underwrite_result, calculate_cash_flow, calculate_mortgage_terms,
    calculate_operating_expenses]
  by_cases hd : pd.purchase_price * fd.down_payment_pct ≤ 0
  · unfold calculate_coc_return
    rw [if_pos hd, if_pos hd]
  · exact calculate_coc_return_mono (not_le.mp hd) (by nlinarith [key])

/-- Witness for C8: raising the example property's rent from 2000 to 2200. -/
theorem coc_return_monotone_in_rent_witness :
    ({} : FinancialData).management_rate ≤ 1 ∧ (2000 : ℚ) < 2200 ∧
    (underwrite_result {} 2025 { sample_property with estimated_rent := 2000 }
        375000).coc_return ≤
      (underwrite_result {} 2025 { sample_property with estimated_rent := 2200 }
        375000).coc_return :=
  ⟨by norm_num, by norm_num,
    coc_return_monotone_in_rent {} 2025 sample_property 375000 2000 2200
      (by norm_num) (by norm_num)⟩
